import Mathlib

/-!
# ObjectFetchContext

A shallow embedding of `eden/fs/store/ObjectFetchContext.h`.

The header declares an abstract class with seven virtual member functions.
Two of them (`getCause`, `getRequestInfo`) are pure virtual, the other five
have a body in the base class.  A concrete fetch context is therefore a
subclass: some private state together with a choice, for every virtual slot,
between the inherited body and an override.

* the private state of a subclass is a type `σ`;
* the subclass itself is a record `Overrides` with one field per virtual
  member function, `none` meaning "not overridden";
* calling a member function is virtual dispatch: the functions `didFetch`,
  `getClientPid`, ... below run the override when there is one and the body
  written in the header otherwise;
* `const` member functions read the state, the two non-`const` ones
  (`didFetch`, `deprioritize`) return either the next state or the
  description of a thrown exception.

Types which the header only names (`ObjectId`, `ProcessId`,
`ImportPriority`) and the constant `kDefaultImportPriority` come from
headers outside this file, they are parameters of the development.
-/

namespace facebook.eden

/-- The C++ type `uint64_t`: the naturals below `2 ^ 64`. -/
abbrev uint64_t : Type := Fin (2 ^ 64)

/-- The C++ type `std::unordered_map<std::string, std::string>`: a finite
mapping with unique keys in which the order of insertion is irrelevant. -/
abbrev RequestInfoMap : Type := Finmap (fun _ : String => String)

/-- The member `operator[]`/`insert_or_assign` of the map type. -/
def RequestInfoMap.insert_or_assign (m : RequestInfoMap) (k v : String) :
    RequestInfoMap :=
  Finmap.insert k v m

/-- The member `find` of the map type. -/
def RequestInfoMap.find (m : RequestInfoMap) (k : String) : Option String :=
  Finmap.lookup k m

namespace ObjectFetchContext

/-- Which object type was fetched (`enum ObjectType : uint8_t`), the
enumerators in the order of the header. -/
inductive ObjectType where
  | Blob
  | BlobMetadata
  | Tree
  | kObjectTypeEnumMax
  deriving DecidableEq, Repr

/-- Which cache satisfied a lookup request (`enum Origin : uint8_t`). -/
inductive Origin where
  | NotFetched
  | FromMemoryCache
  | FromDiskCache
  | FromNetworkFetch
  | kOriginEnumMax
  deriving DecidableEq, Repr

/-- Why the objects were fetched (`enum Cause : uint8_t`). -/
inductive Cause where
  | Unknown
  | Fs
  | Thrift
  | Prefetch
  deriving DecidableEq, Repr

/-- The enumerators of `ObjectType` in declaration order. -/
def ObjectType.enumerators : List ObjectType :=
  [.Blob, .BlobMetadata, .Tree, .kObjectTypeEnumMax]

/-- The enumerators of `Origin` in declaration order. -/
def Origin.enumerators : List Origin :=
  [.NotFetched, .FromMemoryCache, .FromDiskCache, .FromNetworkFetch, .kOriginEnumMax]

/-- The value of an enumerator of an unscoped enumeration without
initialisers: the first one is zero and every other one is the previous one
plus one, in the underlying type `uint8_t`. -/
def enumValue {α : Type} [DecidableEq α] (decls : List α) (e : α) : Nat :=
  decls.indexOf e % 2 ^ 8

/-- The numeric value of an `ObjectType` enumerator. -/
def ObjectType.toNat (t : ObjectType) : Nat :=
  enumValue ObjectType.enumerators t

/-- The numeric value of an `Origin` enumerator. -/
def Origin.toNat (o : Origin) : Nat :=
  enumValue Origin.enumerators o

/-- The enumerators that name a real object type, the sentinel apart. -/
def ObjectType.isReal (t : ObjectType) : Bool :=
  decide (t ≠ .kObjectTypeEnumMax)

/-- The enumerators that name a real origin, the sentinel apart. -/
def Origin.isReal (o : Origin) : Bool :=
  decide (o ≠ .kOriginEnumMax)

/-- The constant `kSessionIdField`. -/
def kSessionIdField : String := "session-id"

/-- The constant `kCacheSessionIdField`. -/
def kCacheSessionIdField : String := "cache-session-id"

/-- The constant `kClientCorrelator`. -/
def kClientCorrelator : String := "client-correlator"

/-- The constant `kClientEntryPoint`. -/
def kClientEntryPoint : String := "client-entrypoint"

/-- The result of a non-`const` member function: the state it leaves behind,
or the exception it threw. -/
abbrev Result (σ : Type) : Type := Except String σ

/-- A subclass of `ObjectFetchContext` with private state `σ`: one field per
virtual member function.  The two pure virtual functions have to be given,
for the five others `none` stands for "inherited from the base class". -/
structure Overrides (σ ObjectId ProcessId ImportPriority : Type) where
  didFetch : Option (σ → ObjectType → ObjectId → Origin → Result σ)
  getClientPid : Option (σ → Option ProcessId)
  getCause : σ → Cause
  getCauseDetail : Option (σ → Option String)
  getPriority : Option (σ → ImportPriority)
  getRequestInfo : σ → Option RequestInfoMap
  deprioritize : Option (σ → uint64_t → Result σ)

section Dispatch

variable {σ ObjectId ProcessId ImportPriority : Type}

/-- The member function `virtual void didFetch(ObjectType, const ObjectId&,
Origin) {}`: the body of the base class does nothing. -/
def didFetch (v : Overrides σ ObjectId ProcessId ImportPriority) (self : σ)
    (type : ObjectType) (id : ObjectId) (origin : Origin) : Result σ :=
  match v.didFetch with
  | some f => f self type id origin
  | none => .ok self

/-- The member function `virtual OptionalProcessId getClientPid() const
{ return std::nullopt; }`. -/
def getClientPid (v : Overrides σ ObjectId ProcessId ImportPriority) (self : σ) :
    Option ProcessId :=
  match v.getClientPid with
  | some f => f self
  | none => none

/-- The member function `virtual Cause getCause() const = 0;`. -/
def getCause (v : Overrides σ ObjectId ProcessId ImportPriority) (self : σ) : Cause :=
  v.getCause self

/-- The member function `virtual std::optional<std::string_view>
getCauseDetail() const { return std::nullopt; }`. -/
def getCauseDetail (v : Overrides σ ObjectId ProcessId ImportPriority) (self : σ) :
    Option String :=
  match v.getCauseDetail with
  | some f => f self
  | none => none

/-- The member function `virtual ImportPriority getPriority() const
{ return kDefaultImportPriority; }`. -/
def getPriority (kDefaultImportPriority : ImportPriority)
    (v : Overrides σ ObjectId ProcessId ImportPriority) (self : σ) : ImportPriority :=
  match v.getPriority with
  | some f => f self
  | none => kDefaultImportPriority

/-- The member function `virtual const std::unordered_map<std::string,
std::string>* getRequestInfo() const = 0;`, the null pointer being `none`. -/
def getRequestInfo (v : Overrides σ ObjectId ProcessId ImportPriority) (self : σ) :
    Option RequestInfoMap :=
  v.getRequestInfo self

/-- The member function `virtual void deprioritize(uint64_t) {}`: the body of
the base class does nothing. -/
def deprioritize (v : Overrides σ ObjectId ProcessId ImportPriority) (self : σ)
    (delta : uint64_t) : Result σ :=
  match v.deprioritize with
  | some f => f self delta
  | none => .ok self

/-- A call of one of the two non-`const` member functions. -/
inductive Call (ObjectId : Type) where
  | didFetch (type : ObjectType) (id : ObjectId) (origin : Origin)
  | deprioritize (delta : uint64_t)

/-- Run one call on a context. -/
def call (v : Overrides σ ObjectId ProcessId ImportPriority) (self : σ) :
    Call ObjectId → Result σ
  | .didFetch type id origin => didFetch v self type id origin
  | .deprioritize delta => deprioritize v self delta

/-- Run a sequence of calls, one after the other, on the same context; an
exception ends the sequence. -/
def calls (v : Overrides σ ObjectId ProcessId ImportPriority) (self : σ) :
    List (Call ObjectId) → Result σ
  | [] => .ok self
  | c :: cs =>
    match call v self c with
    | .ok self1 => calls v self1 cs
    | .error e => .error e

/-- The minimal subclass: it overrides the two pure virtual functions, to
return a fixed cause and a fixed request-info pointer, and nothing else.  It
has no data member. -/
def minimal (ObjectId ProcessId ImportPriority : Type) (c : Cause)
    (r : Option RequestInfoMap) : Overrides Unit ObjectId ProcessId ImportPriority where
  didFetch := none
  getClientPid := none
  getCause := fun _ => c
  getCauseDetail := none
  getPriority := none
  getRequestInfo := fun _ => r
  deprioritize := none

/-- Modelled from the spec: the class of the object behind `getNullContext`
is defined in `ObjectFetchContext.cpp`, which is not among the sources; the
header only declares the accessor.  Section 4.2: "Plain null context:
`cause()` returns `Unknown`, `requestInfo()` returns absent, all other
methods use contract defaults."  It has no data member. -/
def NullObjectFetchContext (ObjectId ProcessId ImportPriority : Type) :
    Overrides Unit ObjectId ProcessId ImportPriority where
  didFetch := none
  getClientPid := none
  getCause := fun _ => .Unknown
  getCauseDetail := none
  getPriority := none
  getRequestInfo := fun _ => none
  deprioritize := none

/-- Modelled from the spec: `static ObjectFetchContextPtr getNullContext();`
is declared in the header and defined outside the sources.  It returns the
one plain null context of the process, here the state of that object. -/
def getNullContext : Unit := ()

/-- Modelled from the spec: the class of the object behind
`getNullContextWithCauseDetail`, defined outside the sources.  Section 4.2:
"Labeled null context: identical, except `causeDetail()` returns a
caller-supplied static string captured at construction."  Its only data
member is the captured string. -/
def LabeledNullObjectFetchContext (ObjectId ProcessId ImportPriority : Type) :
    Overrides String ObjectId ProcessId ImportPriority where
  didFetch := none
  getClientPid := none
  getCause := fun _ => .Unknown
  getCauseDetail := some (fun causeDetail_ => some causeDetail_)
  getPriority := none
  getRequestInfo := fun _ => none
  deprioritize := none

/-- Modelled from the spec: `static ObjectFetchContextPtr
getNullContextWithCauseDetail(std::string_view causeDetail);` is declared in
the header and defined outside the sources.  It returns a newly allocated
labeled null context, here the state of that object. -/
def getNullContextWithCauseDetail (causeDetail : String) : String := causeDetail

/-- The request-info mapping `{"session-id": "abc123"}`. -/
def sessionRequestInfo : RequestInfoMap :=
  RequestInfoMap.insert_or_assign ∅ kSessionIdField "abc123"

/-- A request-info mapping to which the four correlation values are written
under the four well-known keys, one after the other. -/
def withCorrelation (m : RequestInfoMap) (sessionId cacheSessionId correlator
    entryPoint : String) : RequestInfoMap :=
  (((m.insert_or_assign kSessionIdField sessionId).insert_or_assign
    kCacheSessionIdField cacheSessionId).insert_or_assign
    kClientCorrelator correlator).insert_or_assign kClientEntryPoint entryPoint

/-! ## Lemmas on the inherited bodies -/

/-- The inherited `didFetch` returns normally and keeps the state. -/
theorem didFetch_inherited (v : Overrides σ ObjectId ProcessId ImportPriority)
    (h : v.didFetch = none) (self : σ) (type : ObjectType) (id : ObjectId)
    (origin : Origin) : didFetch v self type id origin = .ok self := by
  unfold didFetch
  rw [h]

/-- The inherited `deprioritize` returns normally and keeps the state. -/
theorem deprioritize_inherited (v : Overrides σ ObjectId ProcessId ImportPriority)
    (h : v.deprioritize = none) (self : σ) (delta : uint64_t) :
    deprioritize v self delta = .ok self := by
  unfold deprioritize
  rw [h]

/-- Any sequence of calls keeps the state when both non-`const` member
functions are inherited. -/
theorem calls_inherited (v : Overrides σ ObjectId ProcessId ImportPriority)
    (hf : v.didFetch = none) (hd : v.deprioritize = none) (self : σ)
    (cs : List (Call ObjectId)) : calls v self cs = .ok self := by
  induction cs with
  | nil => rfl
  | cons c cs ih =>
    have hc : call v self c = .ok self := by
      cases c with
      | didFetch type id origin => exact didFetch_inherited v hf self type id origin
      | deprioritize delta => exact deprioritize_inherited v hd self delta
    unfold calls
    rw [hc]
    exact ih

/-- C1: a fetch context whose class does not override `getPriority` reports
exactly `kDefaultImportPriority`, whatever its state (in particular before any
`deprioritize` call), and every minimal variant is such a context. -/
theorem getPriority_default (kDefaultImportPriority : ImportPriority)
    (v : Overrides σ ObjectId ProcessId ImportPriority) (self : σ)
    (h : v.getPriority = none) :
    getPriority kDefaultImportPriority v self = kDefaultImportPriority ∧
      ∀ (c : Cause) (r : Option RequestInfoMap),
        getPriority kDefaultImportPriority
          (minimal ObjectId ProcessId ImportPriority c r) () = kDefaultImportPriority := by
  refine ⟨?_, fun c r => rfl⟩
  unfold getPriority
  rw [h]

/-- Witness of C1: the minimal variant with cause `Thrift` and no request
info, the default priority being 7. -/
theorem getPriority_default_witness :
    (minimal Nat Nat Nat .Thrift none).getPriority = none ∧
      getPriority 7 (minimal Nat Nat Nat .Thrift none) () = 7 :=
  ⟨rfl, (getPriority_default 7 (minimal Nat Nat Nat .Thrift none) () rfl).1⟩

/-- C7: on a context whose class does not override `didFetch`, the call
returns normally for every object type, object id and origin, and the five
getters give after the call what they gave before it (the request info being
the same mapping, key by key). -/
theorem didFetch_default_noop (kDefaultImportPriority : ImportPriority)
    (v : Overrides σ ObjectId ProcessId ImportPriority) (self : σ)
    (type : ObjectType) (id : ObjectId) (origin : Origin)
    (h : v.didFetch = none) :
    ∃ after : σ, didFetch v self type id origin = .ok after ∧
      getCause v after = getCause v self ∧
      getCauseDetail v after = getCauseDetail v self ∧
      getClientPid v after = getClientPid v self ∧
      getPriority kDefaultImportPriority v after =
        getPriority kDefaultImportPriority v self ∧
      getRequestInfo v after = getRequestInfo v self ∧
      ∀ k : String, (getRequestInfo v after).map (fun m => m.find k) =
        (getRequestInfo v self).map (fun m => m.find k) :=
  ⟨self, didFetch_inherited v h self type id origin, rfl, rfl, rfl, rfl, rfl,
    fun _ => rfl⟩

/-- Witness of C7: the scenario of the specification, a context with cause
`Fs` and request info `{"session-id": "abc123"}` notified of a blob served
from the disk cache; the session id is still there afterwards. -/
theorem didFetch_default_noop_witness :
    (minimal Nat Nat Nat .Fs (some sessionRequestInfo)).didFetch = none ∧
      ∃ after : Unit,
        didFetch (minimal Nat Nat Nat .Fs (some sessionRequestInfo)) () .Blob 42
          .FromDiskCache = .ok after ∧
        getCause (minimal Nat Nat Nat .Fs (some sessionRequestInfo)) after = .Fs ∧
        (getRequestInfo (minimal Nat Nat Nat .Fs (some sessionRequestInfo)) after).map
          (fun m => m.find kSessionIdField) = some (some "abc123") := by
  refine ⟨rfl, ?_⟩
  obtain ⟨after, hcall, hcause, _, _, _, _, hkeys⟩ :=
    didFetch_default_noop 0 (minimal Nat Nat Nat .Fs (some sessionRequestInfo)) ()
      .Blob 42 .FromDiskCache rfl
  refine ⟨after, hcall, hcause, ?_⟩
  rw [hkeys kSessionIdField]
  decide

/-- C8: on a context whose class does not override `deprioritize`, the call
with any `uint64_t` delta returns normally and the five getters give after
the call what they gave before it. -/
theorem deprioritize_default_noop (kDefaultImportPriority : ImportPriority)
    (v : Overrides σ ObjectId ProcessId ImportPriority) (self : σ) (delta : uint64_t)
    (h : v.deprioritize = none) :
    ∃ after : σ, deprioritize v self delta = .ok after ∧
      getPriority kDefaultImportPriority v after =
        getPriority kDefaultImportPriority v self ∧
      getCause v after = getCause v self ∧
      getCauseDetail v after = getCauseDetail v self ∧
      getClientPid v after = getClientPid v self ∧
      getRequestInfo v after = getRequestInfo v self :=
  ⟨self, deprioritize_inherited v h self delta, rfl, rfl, rfl, rfl, rfl⟩

/-- Witness of C8: the labeled null context "journal" deprioritized by the
largest delta, `2 ^ 64 - 1`; it still reports its label and the default
priority 7. -/
theorem deprioritize_default_noop_witness :
    (LabeledNullObjectFetchContext Nat Nat Nat).deprioritize = none ∧
      ((Fin.last (2 ^ 64 - 1) : uint64_t).val = 18446744073709551615) ∧
      ∃ after : String,
        deprioritize (LabeledNullObjectFetchContext Nat Nat Nat)
          (getNullContextWithCauseDetail "journal") (Fin.last (2 ^ 64 - 1)) = .ok after ∧
        getPriority 7 (LabeledNullObjectFetchContext Nat Nat Nat) after = 7 ∧
        getCauseDetail (LabeledNullObjectFetchContext Nat Nat Nat) after = some "journal" := by
  refine ⟨rfl, rfl, ?_⟩
  obtain ⟨after, hcall, hprio, _, hdetail, _, _⟩ :=
    deprioritize_default_noop 7 (LabeledNullObjectFetchContext Nat Nat Nat)
      (getNullContextWithCauseDetail "journal") (Fin.last (2 ^ 64 - 1)) rfl
  exact ⟨after, hcall, hprio.trans rfl, hdetail.trans rfl⟩

/-- C9: the variant that overrides only `getCause`, to return `c`, and
`getRequestInfo`, to return `r`, reports cause `c`, request info `r`, no cause
detail and no client pid. -/
theorem minimal_variant_getters (c : Cause) (r : Option RequestInfoMap) :
    getCause (minimal ObjectId ProcessId ImportPriority c r) () = c ∧
      getRequestInfo (minimal ObjectId ProcessId ImportPriority c r) () = r ∧
      getCauseDetail (minimal ObjectId ProcessId ImportPriority c r) () = none ∧
      getClientPid (minimal ObjectId ProcessId ImportPriority c r) () = none :=
  ⟨rfl, rfl, rfl, rfl⟩

/-- C3, as stated, fails: the body of `deprioritize` in the base class is
empty.  On the minimal variant with cause `Fs`, the default priority being 7,
`deprioritize(1)` returns normally with a positive delta and the priority
after the call, 7, is not strictly less than the priority before it. -/
theorem deprioritize_default_not_lower :
    (0 : uint64_t) < 1 ∧
      deprioritize (minimal Nat Nat Nat .Fs none) () 1 = .ok () ∧
      getPriority 7 (minimal Nat Nat Nat .Fs none) () = 7 ∧
      ¬ (getPriority 7 (minimal Nat Nat Nat .Fs none) () <
          getPriority 7 (minimal Nat Nat Nat .Fs none) ()) :=
  ⟨by decide, rfl, rfl, by decide⟩

/-- C3, amended: on a context whose class does not override `deprioritize`, a
single call with any delta, positive ones included, returns normally and
leaves the priority equal to the priority before the call: it is not above
it and not strictly below it, in any ordering of the priorities. -/
theorem deprioritize_default_keeps_priority [Preorder ImportPriority]
    (kDefaultImportPriority : ImportPriority)
    (v : Overrides σ ObjectId ProcessId ImportPriority) (self : σ) (delta : uint64_t)
    (h : v.deprioritize = none) :
    ∃ after : σ, deprioritize v self delta = .ok after ∧
      getPriority kDefaultImportPriority v after =
        getPriority kDefaultImportPriority v self ∧
      getPriority kDefaultImportPriority v after ≤
        getPriority kDefaultImportPriority v self ∧
      ¬ (getPriority kDefaultImportPriority v after <
          getPriority kDefaultImportPriority v self) :=
  ⟨self, deprioritize_inherited v h self delta, rfl, le_refl _, lt_irrefl _⟩

/-- Witness of C3 amended: the plain null context deprioritized by 3, the
priorities being naturals with default 7. -/
theorem deprioritize_default_keeps_priority_witness :
    (NullObjectFetchContext Nat Nat Nat).deprioritize = none ∧
      ∃ after : Unit,
        deprioritize (NullObjectFetchContext Nat Nat Nat) getNullContext 3 = .ok after ∧
        getPriority 7 (NullObjectFetchContext Nat Nat Nat) after = 7 ∧
        ¬ (getPriority 7 (NullObjectFetchContext Nat Nat Nat) after <
            getPriority 7 (NullObjectFetchContext Nat Nat Nat) getNullContext) := by
  refine ⟨rfl, ?_⟩
  obtain ⟨after, hcall, heq, _, hlt⟩ :=
    deprioritize_default_keeps_priority 7 (NullObjectFetchContext Nat Nat Nat)
      getNullContext 3 rfl
  exact ⟨after, hcall, heq.trans rfl, hlt⟩

/-- C4: after every sequence of `didFetch` and `deprioritize` calls, none
included, the plain null context returned by `getNullContext` is still there
(no call throws) and reports cause `Unknown`, no request info, no cause
detail, no client pid and the default priority. -/
theorem null_context_getters (kDefaultImportPriority : ImportPriority)
    (cs : List (Call ObjectId)) :
    ∃ after : Unit,
      calls (NullObjectFetchContext ObjectId ProcessId ImportPriority) getNullContext cs =
        .ok after ∧
      getCause (NullObjectFetchContext ObjectId ProcessId ImportPriority) after = .Unknown ∧
      getRequestInfo (NullObjectFetchContext ObjectId ProcessId ImportPriority) after = none ∧
      getCauseDetail (NullObjectFetchContext ObjectId ProcessId ImportPriority) after = none ∧
      getClientPid (NullObjectFetchContext ObjectId ProcessId ImportPriority) after = none ∧
      getPriority kDefaultImportPriority
        (NullObjectFetchContext ObjectId ProcessId ImportPriority) after =
          kDefaultImportPriority :=
  ⟨(), calls_inherited _ rfl rfl getNullContext cs, rfl, rfl, rfl, rfl, rfl⟩

/-- C5: for every string `s`, the context returned by
`getNullContextWithCauseDetail(s)` reports cause detail `s`, cause `Unknown`
and no request info after every sequence of `didFetch` and `deprioritize`
calls; and two such contexts made from different strings report different
cause details, whatever calls were made on each. -/
theorem labeled_null_context_getters :
    (∀ (s : String) (cs : List (Call ObjectId)), ∃ after : String,
      calls (LabeledNullObjectFetchContext ObjectId ProcessId ImportPriority)
        (getNullContextWithCauseDetail s) cs = .ok after ∧
      getCauseDetail (LabeledNullObjectFetchContext ObjectId ProcessId ImportPriority)
        after = some s ∧
      getCause (LabeledNullObjectFetchContext ObjectId ProcessId ImportPriority)
        after = .Unknown ∧
      getRequestInfo (LabeledNullObjectFetchContext ObjectId ProcessId ImportPriority)
        after = none) ∧
    (∀ (s1 s2 : String) (cs1 cs2 : List (Call ObjectId)) (after1 after2 : String),
      s1 ≠ s2 →
      calls (LabeledNullObjectFetchContext ObjectId ProcessId ImportPriority)
        (getNullContextWithCauseDetail s1) cs1 = .ok after1 →
      calls (LabeledNullObjectFetchContext ObjectId ProcessId ImportPriority)
        (getNullContextWithCauseDetail s2) cs2 = .ok after2 →
      getCauseDetail (LabeledNullObjectFetchContext ObjectId ProcessId ImportPriority)
        after1 ≠
      getCauseDetail (LabeledNullObjectFetchContext ObjectId ProcessId ImportPriority)
        after2) := by
  refine ⟨fun s cs => ⟨s, calls_inherited _ rfl rfl _ cs, rfl, rfl, rfl⟩, ?_⟩
  intro s1 s2 cs1 cs2 after1 after2 hne h1 h2
  rw [calls_inherited _ rfl rfl] at h1 h2
  cases h1
  cases h2
  intro heq
  exact hne (Option.some.inj heq)

/-- Witness of C5: the labels "prefetch" and "journal", the first context
notified of a fetch and deprioritized, the second one left alone. -/
theorem labeled_null_context_getters_witness :
    ("prefetch" : String) ≠ "journal" ∧
      calls (LabeledNullObjectFetchContext Nat Nat Nat)
        (getNullContextWithCauseDetail "prefetch")
        [.didFetch .Tree 1 .FromNetworkFetch, .deprioritize 4] = .ok "prefetch" ∧
      calls (LabeledNullObjectFetchContext Nat Nat Nat)
        (getNullContextWithCauseDetail "journal") [] = .ok "journal" ∧
      getCauseDetail (LabeledNullObjectFetchContext Nat Nat Nat) "prefetch" ≠
        getCauseDetail (LabeledNullObjectFetchContext Nat Nat Nat) "journal" :=
  ⟨by decide, rfl, rfl,
    (@labeled_null_context_getters Nat Nat Nat).2 "prefetch" "journal"
      [.didFetch .Tree 1 .FromNetworkFetch, .deprioritize 4] [] "prefetch" "journal"
      (by decide) rfl rfl⟩

/-- C6: the four request-info key constants are the literal strings
"session-id", "cache-session-id", "client-correlator" and
"client-entrypoint"; they are pairwise distinct; and a mapping to which four
values are written under the four keys holds all four of them, each under its
own key. -/
theorem request_info_keys :
    (kSessionIdField = "session-id" ∧ kCacheSessionIdField = "cache-session-id" ∧
      kClientCorrelator = "client-correlator" ∧
      kClientEntryPoint = "client-entrypoint") ∧
    (kSessionIdField ≠ kCacheSessionIdField ∧ kSessionIdField ≠ kClientCorrelator ∧
      kSessionIdField ≠ kClientEntryPoint ∧ kCacheSessionIdField ≠ kClientCorrelator ∧
      kCacheSessionIdField ≠ kClientEntryPoint ∧
      kClientCorrelator ≠ kClientEntryPoint) ∧
    (∀ (m : RequestInfoMap) (a b c d : String),
      (withCorrelation m a b c d).find kSessionIdField = some a ∧
      (withCorrelation m a b c d).find kCacheSessionIdField = some b ∧
      (withCorrelation m a b c d).find kClientCorrelator = some c ∧
      (withCorrelation m a b c d).find kClientEntryPoint = some d) := by
  have h12 : kSessionIdField ≠ kCacheSessionIdField := by decide
  have h13 : kSessionIdField ≠ kClientCorrelator := by decide
  have h14 : kSessionIdField ≠ kClientEntryPoint := by decide
  have h23 : kCacheSessionIdField ≠ kClientCorrelator := by decide
  have h24 : kCacheSessionIdField ≠ kClientEntryPoint := by decide
  have h34 : kClientCorrelator ≠ kClientEntryPoint := by decide
  refine ⟨⟨rfl, rfl, rfl, rfl⟩, ⟨h12, h13, h14, h23, h24, h34⟩, ?_⟩
  intro m a b c d
  unfold withCorrelation RequestInfoMap.find RequestInfoMap.insert_or_assign
  refine ⟨?_, ?_, ?_, ?_⟩
  · rw [Finmap.lookup_insert_of_ne _ h14, Finmap.lookup_insert_of_ne _ h13,
      Finmap.lookup_insert_of_ne _ h12, Finmap.lookup_insert]
  · rw [Finmap.lookup_insert_of_ne _ h24, Finmap.lookup_insert_of_ne _ h23,
      Finmap.lookup_insert]
  · rw [Finmap.lookup_insert_of_ne _ h34, Finmap.lookup_insert]
  · rw [Finmap.lookup_insert]

/-- C10: the enumerators of `ObjectType` have the values 0, 1, 2 and the
sentinel 3, those of `Origin` the values 0, 1, 2, 3 and the sentinel 4; in
both enumerations the real enumerators have distinct values, all below the
sentinel, every index below the sentinel is the value of a real enumerator,
and a real enumerator indexes an array of the size of the sentinel within its
bounds. -/
theorem enum_values_index_arrays :
    (ObjectType.Blob.toNat = 0 ∧ ObjectType.BlobMetadata.toNat = 1 ∧
      ObjectType.Tree.toNat = 2 ∧ ObjectType.kObjectTypeEnumMax.toNat = 3) ∧
    (Origin.NotFetched.toNat = 0 ∧ Origin.FromMemoryCache.toNat = 1 ∧
      Origin.FromDiskCache.toNat = 2 ∧ Origin.FromNetworkFetch.toNat = 3 ∧
      Origin.kOriginEnumMax.toNat = 4) ∧
    (∀ t : ObjectType, t.isReal = true →
      t.toNat < ObjectType.kObjectTypeEnumMax.toNat) ∧
    (∀ a b : ObjectType, a.isReal = true → b.isReal = true →
      a.toNat = b.toNat → a = b) ∧
    (∀ i : Nat, i < ObjectType.kObjectTypeEnumMax.toNat →
      ∃ t : ObjectType, t.isReal = true ∧ t.toNat = i) ∧
    (∀ o : Origin, o.isReal = true → o.toNat < Origin.kOriginEnumMax.toNat) ∧
    (∀ a b : Origin, a.isReal = true → b.isReal = true →
      a.toNat = b.toNat → a = b) ∧
    (∀ i : Nat, i < Origin.kOriginEnumMax.toNat →
      ∃ o : Origin, o.isReal = true ∧ o.toNat = i) ∧
    (∀ (α : Type) (counters : List α) (t : ObjectType),
      counters.length = ObjectType.kObjectTypeEnumMax.toNat → t.isReal = true →
      ∃ x : α, counters[t.toNat]? = some x) ∧
    (∀ (α : Type) (counters : List α) (o : Origin),
      counters.length = Origin.kOriginEnumMax.toNat → o.isReal = true →
      ∃ x : α, counters[o.toNat]? = some x) := by
  have ht : ∀ t : ObjectType, t.isReal = true →
      t.toNat < ObjectType.kObjectTypeEnumMax.toNat := by
    intro t h
    cases t <;> first | decide | exact absurd h (by decide)
  have ho : ∀ o : Origin, o.isReal = true →
      o.toNat < Origin.kOriginEnumMax.toNat := by
    intro o h
    cases o <;> first | decide | exact absurd h (by decide)
  refine ⟨by decide, by decide, ht, ?_, ?_, ho, ?_, ?_, ?_, ?_⟩
  · intro a b _ _ h
    cases a <;> cases b <;> first | rfl | exact absurd h (by decide)
  · intro i hi
    have h3 : ObjectType.kObjectTypeEnumMax.toNat = 3 := rfl
    rw [h3] at hi
    interval_cases i
    · exact ⟨.Blob, rfl, rfl⟩
    · exact ⟨.BlobMetadata, rfl, rfl⟩
    · exact ⟨.Tree, rfl, rfl⟩
  · intro a b _ _ h
    cases a <;> cases b <;> first | rfl | exact absurd h (by decide)
  · intro i hi
    have h4 : Origin.kOriginEnumMax.toNat = 4 := rfl
    rw [h4] at hi
    interval_cases i
    · exact ⟨.NotFetched, rfl, rfl⟩
    · exact ⟨.FromMemoryCache, rfl, rfl⟩
    · exact ⟨.FromDiskCache, rfl, rfl⟩
    · exact ⟨.FromNetworkFetch, rfl, rfl⟩
  · intro α counters t hlen h
    have hlt : t.toNat < counters.length := hlen ▸ ht t h
    exact ⟨counters[t.toNat], List.getElem?_eq_getElem hlt⟩
  · intro α counters o hlen h
    have hlt : o.toNat < counters.length := hlen ▸ ho o h
    exact ⟨counters[o.toNat], List.getElem?_eq_getElem hlt⟩

/-- Witness of C10: `Tree` and `FromNetworkFetch`, the last real enumerators,
index the last slot of an array of three, respectively four, counters. -/
theorem enum_values_index_arrays_witness :
    ObjectType.Tree.toNat < ObjectType.kObjectTypeEnumMax.toNat ∧
      Origin.FromNetworkFetch.toNat < Origin.kOriginEnumMax.toNat ∧
      (∃ x : Nat, [10, 20, 30][ObjectType.Tree.toNat]? = some x) ∧
      (∃ x : Nat, [10, 20, 30, 40][Origin.FromNetworkFetch.toNat]? = some x) :=
  ⟨enum_values_index_arrays.2.2.1 .Tree rfl,
    enum_values_index_arrays.2.2.2.2.2.1 .FromNetworkFetch rfl,
    enum_values_index_arrays.2.2.2.2.2.2.2.2.1 Nat [10, 20, 30] .Tree rfl rfl,
    enum_values_index_arrays.2.2.2.2.2.2.2.2.2 Nat [10, 20, 30, 40] .FromNetworkFetch
      rfl rfl⟩

end Dispatch

end ObjectFetchContext

end facebook.eden
